import Mathlib

/-!
Shallow embedding of the snmptools crate (src/lib.rs): a small wrapper over
the net-snmp native resolver.  The native resolver primitives (init_snmp,
snprint_objid, get_node), the dynamic loader and the lossy UTF-8 decoder are
external collaborators; they are modelled as oracle parameters, while every
piece of control flow, buffer bookkeeping and error classification of the
crate itself is translated from the Rust source.  Machine integers are Nat
with explicit bounds (the native oid word is 64 bits wide); a Rust byte
string is a list of byte values; a Rust panic and undefined behaviour are
explicit outcomes.
-/

namespace Snmptools

/-- MAX_OID_LEN, the fixed capacity of the native oid array (128 in the
dynamic variant and in netsnmp_sys on 64-bit Linux). -/
def MAX_OID_LEN : Nat := 128

/-- MAX_NAME_LEN, the fixed size of the name output buffer. -/
def MAX_NAME_LEN : Nat := 1024

/-- ErrorKind from src/lib.rs lines 20-24. -/
inductive ErrorKind where
  | Failed
  | InvalidData
deriving DecidableEq, Repr

/-- Error from src/lib.rs lines 26-30: a kind and a message. -/
structure Error where
  kind : ErrorKind
  message : String
deriving DecidableEq, Repr

/-- Error::invalid_data (src/lib.rs lines 35-41). -/
def Error.invalid_data (msg : String) : Error :=
  { kind := ErrorKind.InvalidData, message := msg }

/-- Error::failed (src/lib.rs lines 42-48). -/
def Error.failed (msg : String) : Error :=
  { kind := ErrorKind.Failed, message := msg }

/-- Outcome of running a Rust computation: a normal return, a returned
Error, a panic, or undefined behaviour (an out-of-bounds raw-pointer read). -/
inductive Outcome (α : Type) where
  | ok : α → Outcome α
  | err : Error → Outcome α
  | panicked : String → Outcome α
  | ub : String → Outcome α
deriving DecidableEq, Repr

/-- A Rust byte string: each element is one byte (values below 256; only the
value 0, the nul byte, matters to the code). -/
abbrev Bytes := List Nat

/-- Display text of std::ffi::NulError for a byte string holding a nul. -/
def nulErrorMsg (s : Bytes) : String :=
  "nul byte found in provided data at position: " ++ toString (s.indexOf 0)

/-- CString::new: fails when the bytes hold an interior nul, otherwise
appends the terminating nul. -/
def cstringNew (s : Bytes) : Except String Bytes :=
  if 0 ∈ s then Except.error (nulErrorMsg s) else Except.ok (s ++ [0])

/-- The name-encoding step of get_oid, src/lib.rs line 221:
CString::new(name).map_err(Error::invalid_data). -/
def encode_name (s : Bytes) : Except Error Bytes :=
  match cstringNew s with
  | Except.ok c => Except.ok c
  | Except.error e => Except.error (Error.invalid_data e)

/-- Config (src/lib.rs lines 63-70), dynamic variant: lib_path is present.
app_name is kept as bytes because only its nul content matters. -/
structure Config where
  lib_path : String
  app_name : Bytes
  mibs : List String
  mib_dirs : List String

/-- Config::default (src/lib.rs lines 72-82); the default app_name is the
crate name "snmptools". -/
def Config.new : Config :=
  { lib_path := "libnetsnmp.so"
    app_name := [115, 110, 109, 112, 116, 111, 111, 108, 115]
    mibs := []
    mib_dirs := [] }

/-- A shared library opened by the dynamic loader: symbol lookup either
yields a handle or the loader diagnostic (libloading::Library::get). -/
structure Lib where
  getSym : String → Except String Unit

/-- The two environment variables the crate touches. -/
structure SnmpEnv where
  mibsVar : Option String
  mibdirsVar : Option String

/-- Process-wide state read and written by init: the environment, the
NETSNMP once-cell (src/lib.rs line 16), and counters tracing how often the
loader was asked to open a library and how often the native init_snmp
primitive ran. -/
structure SnmpState where
  env : SnmpEnv
  cell : Option Lib
  openCalls : Nat
  initSnmpCalls : Nat

/-- Step 1 of init (src/lib.rs lines 120-125): set MIBS / MIBDIRS to the
colon-joined lists when they are non-empty, leave them untouched otherwise. -/
def applyEnv (config : Config) (e : SnmpEnv) : SnmpEnv :=
  { mibsVar :=
      if config.mibs = [] then e.mibsVar
      else some (String.intercalate (":") config.mibs)
    mibdirsVar :=
      if config.mib_dirs = [] then e.mibdirsVar
      else some (String.intercalate (":") config.mib_dirs) }

/-- init (src/lib.rs lines 119-145), dynamic variant. L is the loader
oracle (libloading::Library::new).  Order of effects as in the source: the
environment mutations first, then CString::new(app_name).unwrap() (a panic
on an interior nul), then the empty-path check, the library open, the
resolution of the one symbol init_snmp, the native init_snmp call, and
finally NETSNMP.set(lib).unwrap() (a panic when the cell is already set). -/
def init (L : String → Except String Lib) (config : Config) (s : SnmpState) :
    Outcome Unit × SnmpState :=
  let s1 : SnmpState := { s with env := applyEnv config s.env }
  match cstringNew config.app_name with
  | Except.error e =>
      (Outcome.panicked ("called Result::unwrap on an Err value: " ++ e), s1)
  | Except.ok _app_name =>
      if config.lib_path = "" then
        (Outcome.err (Error.failed ("lib path not set")), s1)
      else
        let s2 : SnmpState := { s1 with openCalls := s1.openCalls + 1 }
        match L config.lib_path with
        | Except.error e => (Outcome.err (Error.failed e), s2)
        | Except.ok lib =>
            match lib.getSym ("init_snmp") with
            | Except.error e => (Outcome.err (Error.failed e), s2)
            | Except.ok _ =>
                let s3 : SnmpState := { s2 with initSnmpCalls := s2.initSnmpCalls + 1 }
                match s3.cell with
                | some _ =>
                    (Outcome.panicked ("called Result::unwrap on an Err value: lib"), s3)
                | none => (Outcome.ok (), { s3 with cell := some lib })

/-- BigUint-to-u64 conversion (val.try_into() at src/lib.rs line 168): an
oid component fits the native word exactly when it is below 2 ^ 64; the
failure diagnostic is the Display text of TryFromBigIntError. -/
def tryIntoU64 (v : Nat) : Except String Nat :=
  if v < 2 ^ 64 then Except.ok v
  else Except.error ("out of range conversion regarding big integer attempted")

/-- The oid-encoding loop of get_name (src/lib.rs lines 163-172).  n is the
enumerate index, arr the native array, len the n_len counter.  Per element:
the too-long guard compares n with MAX_OID_LEN using a strict greater-than;
then the value is converted (the assignment evaluates its right side first);
then the array write bounds-checks n, panicking when n reaches the array
length. -/
def encodeOidLoop : List Nat → Nat → List Nat → Nat → Outcome (List Nat × Nat)
  | [], _, arr, len => Outcome.ok (arr, len)
  | v :: rest, n, arr, len =>
      if n > MAX_OID_LEN then
        Outcome.err (Error.invalid_data ("SNMP OID too long"))
      else
        match tryIntoU64 v with
        | Except.error e => Outcome.err (Error.failed ("Invalid SNMP OID: " ++ e))
        | Except.ok w =>
            if n < arr.length then
              encodeOidLoop rest (n + 1) (arr.set n w) (len + 1)
            else
              Outcome.panicked
                ("index out of bounds: the len is " ++ toString arr.length ++
                  " but the index is " ++ toString n)

/-- The oid-encoding step of get_name (src/lib.rs lines 158-172): a
zero-filled array of capacity MAX_OID_LEN, the loop starting at index 0 and
count 0. -/
def encode_oid (snmp_oid : List Nat) : Outcome (List Nat × Nat) :=
  encodeOidLoop snmp_oid 0 (List.replicate MAX_OID_LEN 0) 0

/-- The name-decoding step of get_name (src/lib.rs lines 201-202):
CStr::from_ptr scans the buffer for the first nul and hands the preceding
bytes to the lossy UTF-8 decoder (an oracle, to_string_lossy).  When the
buffer holds no nul at all, from_ptr keeps reading past the end of the
array: undefined behaviour, not a returned string. -/
def decode_name (lossy : Bytes → String) (buf : Bytes) : Outcome String :=
  if 0 ∈ buf then
    Outcome.ok (lossy (buf.takeWhile (fun b => b != 0)))
  else
    Outcome.ub ("CStr::from_ptr read past the end of the name buffer")

/-- get_name (src/lib.rs lines 154-203): encode the oid, let the native
snprint_objid oracle rewrite the zero-initialized name buffer, decode the
result.  The oracle receives the buffer, its length, the encoded array and
the entry count, and returns the buffer as it leaves the native call. -/
def get_name (snprint_objid : Bytes → Nat → List Nat → Nat → Bytes)
    (lossy : Bytes → String) (snmp_oid : List Nat) : Outcome String :=
  match encode_oid snmp_oid with
  | Outcome.ok (n_oid, n_len) =>
      decode_name lossy
        (snprint_objid (List.replicate MAX_NAME_LEN 0) MAX_NAME_LEN n_oid n_len)
  | Outcome.err e => Outcome.err e
  | Outcome.panicked m => Outcome.panicked m
  | Outcome.ub m => Outcome.ub m

/-- get_oid (src/lib.rs lines 212-240), static variant.  oidFrom is the
external Oid constructor (der_parser Oid::from, which may reject a slice);
get_node is the native resolver oracle, receiving the nul-terminated name,
the zero-initialized array and the in/out length initialized to MAX_OID_LEN,
and returning the status, the array after the call and the final length.
Status zero is the lookup failure; otherwise the oid is built from the first
len entries (the slice panics when len exceeds the array length). -/
def get_oid {O : Type} (oidFrom : List Nat → Except Unit O)
    (get_node : Bytes → List Nat → Nat → Int × List Nat × Nat)
    (name : Bytes) : Outcome O :=
  match encode_name name with
  | Except.error e => Outcome.err e
  | Except.ok c_name =>
      let r := get_node c_name (List.replicate MAX_OID_LEN 0) MAX_OID_LEN
      let res := r.1
      let arr := r.2.1
      let len := r.2.2
      if res = 0 then Outcome.err (Error.failed ("Unable to get SNMP OID"))
      else
        if len ≤ arr.length then
          match oidFrom (arr.take len) with
          | Except.ok o => Outcome.ok o
          | Except.error _ => Outcome.err (Error.failed ("Unable to create SNMP OID"))
        else
          Outcome.panicked
            ("range end index " ++ toString len ++
              " out of range for slice of length " ++ toString arr.length)

/-! Concrete oracles and inputs used by witnesses and counterexamples. -/

/-- A loader that cannot open any path. -/
def Lfail : String → Except String Lib :=
  fun _ => Except.error ("cannot open shared object file")

/-- A library exposing only the init_snmp symbol: snprint_objid and
get_node are unresolvable in it. -/
def libOnlyInit : Lib :=
  { getSym := fun sym =>
      if sym = "init_snmp" then Except.ok ()
      else Except.error ("undefined symbol: " ++ sym) }

/-- A loader that opens every path as libOnlyInit. -/
def LonlyInit : String → Except String Lib := fun _ => Except.ok libOnlyInit

/-- A fresh process state: variables unset, cell empty, no native calls. -/
def st0 : SnmpState :=
  { env := { mibsVar := none, mibdirsVar := none }
    cell := none
    openCalls := 0
    initSnmpCalls := 0 }

/-- A configuration with both MIB lists set. -/
def cfgMibs : Config :=
  { lib_path := "x", app_name := [97], mibs := ["./a.mib"], mib_dirs := ["/usr/mibs"] }

/-- A well-formed dynamic configuration with empty MIB lists. -/
def cfgDyn : Config :=
  { lib_path := "libnetsnmp.so", app_name := [97], mibs := [], mib_dirs := [] }

/-- A configuration whose app_name holds an interior nul byte. -/
def cfgNulName : Config :=
  { lib_path := "libnetsnmp.so", app_name := [97, 0, 98], mibs := ["m"], mib_dirs := [] }

/-- A get_node oracle that succeeds with three entries of value 7. -/
def gwNode : Bytes → List Nat → Nat → Int × List Nat × Nat :=
  fun _ _ _ => (1, List.replicate MAX_OID_LEN 7, 3)

/-- An Oid constructor that accepts every slice as itself. -/
def oidFromId : List Nat → Except Unit (List Nat) := fun l => Except.ok l

/-- A concrete stand-in for the lossy UTF-8 decoder. -/
def lossyConst : Bytes → String := fun _ => "A"

/-! Helper lemmas shared by several claims. -/

/-- Whatever init returns, the environment component of the final state is
exactly the step-1 mutation applyEnv: no later step touches or rolls back
the environment. -/
theorem init_env_eq (L : String → Except String Lib) (config : Config) (s : SnmpState) :
    (init L config s).2.env = applyEnv config s.env := by
  unfold init
  dsimp only
  split
  · rfl
  · split
    · rfl
    · split
      · rfl
      · split
        · rfl
        · split <;> rfl

/-- cstringNew on nul-free bytes appends the terminator. -/
theorem cstringNew_ok {s : Bytes} (h : 0 ∉ s) : cstringNew s = Except.ok (s ++ [0]) := by
  simp [cstringNew, h]

/-- cstringNew on bytes holding a nul fails with the NulError text. -/
theorem cstringNew_err {s : Bytes} (h : 0 ∈ s) : cstringNew s = Except.error (nulErrorMsg s) := by
  simp [cstringNew, h]

/-- C5: init leaves the MIBS (resp. MIBDIRS) environment variable as it was
— in particular unset if it was unset — when the configured mibs (resp.
mib_dirs) list is empty, and otherwise sets it to exactly the colon-joined
list of the configured paths in order. -/
theorem init_sets_env_vars (L : String → Except String Lib) (config : Config) (s : SnmpState) :
    (init L config s).2.env.mibsVar =
      (if config.mibs = [] then s.env.mibsVar
       else some (String.intercalate (":") config.mibs)) ∧
    (init L config s).2.env.mibdirsVar =
      (if config.mib_dirs = [] then s.env.mibdirsVar
       else some (String.intercalate (":") config.mib_dirs)) := by
  rw [init_env_eq]
  exact ⟨rfl, rfl⟩

/-- C6: no rollback on partial failure: whenever init returns an Error, the
MIBS/MIBDIRS values written by step 1 from non-empty lists are still in the
environment of the final state. -/
theorem init_no_rollback (L : String → Except String Lib) (config : Config) (s : SnmpState)
    (hm : config.mibs ≠ []) (hd : config.mib_dirs ≠ [])
    (e : Error) (hfail : (init L config s).1 = Outcome.err e) :
    (init L config s).2.env.mibsVar = some (String.intercalate (":") config.mibs) ∧
    (init L config s).2.env.mibdirsVar = some (String.intercalate (":") config.mib_dirs) := by
  rw [init_env_eq]
  exact ⟨by simp [applyEnv, hm], by simp [applyEnv, hd]⟩

/-- C6 witness: a loader failure with both lists configured leaves both
variables set to the joined paths. -/
theorem init_no_rollback_witness :
    (init Lfail cfgMibs st0).2.env.mibsVar = some ("./a.mib") ∧
    (init Lfail cfgMibs st0).2.env.mibdirsVar = some ("/usr/mibs") :=
  init_no_rollback Lfail cfgMibs st0 (by decide) (by decide)
    (Error.failed ("cannot open shared object file")) rfl

/-- C7: an app_name holding an interior nul byte makes init panic (the
unwrap on CString::new), not return an Error; the panic happens after the
step-1 environment mutations, which are present in the final state. -/
theorem init_nul_app_name_panics (L : String → Except String Lib) (config : Config)
    (s : SnmpState) (h : 0 ∈ config.app_name) :
    (init L config s).1 =
      Outcome.panicked
        ("called Result::unwrap on an Err value: " ++ nulErrorMsg config.app_name) ∧
    (init L config s).2.env = applyEnv config s.env := by
  refine ⟨?_, init_env_eq L config s⟩
  unfold init
  rw [cstringNew_err h]

/-- C7 witness: the nul-carrying app_name [97, 0, 98] panics and the mibs
variable mutation has already happened. -/
theorem init_nul_app_name_panics_witness :
    (init Lfail cfgNulName st0).1 =
      Outcome.panicked
        ("called Result::unwrap on an Err value: " ++ nulErrorMsg cfgNulName.app_name) ∧
    (init Lfail cfgNulName st0).2.env = applyEnv cfgNulName st0.env :=
  init_nul_app_name_panics Lfail cfgNulName st0 (by decide)

/-- C2 counterexample: a library in which snprint_objid and get_node are
unresolvable, yet init succeeds and the native init_snmp primitive runs
once — init resolves only init_snmp, not all three required symbols. -/
theorem init_missing_symbols_cex :
    libOnlyInit.getSym ("snprint_objid") =
      Except.error ("undefined symbol: snprint_objid") ∧
    libOnlyInit.getSym ("get_node") = Except.error ("undefined symbol: get_node") ∧
    (init LonlyInit cfgDyn st0).1 = Outcome.ok () ∧
    (init LonlyInit cfgDyn st0).2.initSnmpCalls = 1 :=
  ⟨rfl, rfl, rfl, rfl⟩

/-- C2 amended: in the dynamic variant, init with an empty lib_path returns
Failed without consulting the loader; an unopenable path returns Failed
carrying the loader diagnostic; and when the one symbol init does resolve,
init_snmp, is unresolvable, init returns Failed before the native init
primitive runs.  The other two symbols are resolved lazily by
get_name/get_oid, not by init. -/
theorem init_dynamic_failure_modes (L : String → Except String Lib)
    (config : Config) (s : SnmpState) :
    (0 ∉ config.app_name → config.lib_path = "" →
      (init L config s).1 = Outcome.err (Error.failed ("lib path not set")) ∧
      (init L config s).2.openCalls = s.openCalls ∧
      (init L config s).2.initSnmpCalls = s.initSnmpCalls) ∧
    (∀ d, 0 ∉ config.app_name → config.lib_path ≠ "" →
      L config.lib_path = Except.error d →
      (init L config s).1 = Outcome.err (Error.failed d) ∧
      (init L config s).2.initSnmpCalls = s.initSnmpCalls) ∧
    (∀ lib d, 0 ∉ config.app_name → config.lib_path ≠ "" →
      L config.lib_path = Except.ok lib →
      lib.getSym ("init_snmp") = Except.error d →
      (init L config s).1 = Outcome.err (Error.failed d) ∧
      (init L config s).2.initSnmpCalls = s.initSnmpCalls) := by
  refine ⟨?_, ?_, ?_⟩
  · intro hn hp
    unfold init
    rw [cstringNew_ok hn]
    simp [hp]
  · intro d hn hp hL
    unfold init
    rw [cstringNew_ok hn]
    simp [hp, hL]
  · intro lib d hn hp hL hs
    unfold init
    rw [cstringNew_ok hn]
    simp [hp, hL, hs]

/-- C10: once init has succeeded, a second call that passes library loading
again reaches NETSNMP.set(lib).unwrap() on an already-set once-cell and
panics: a repeated init is neither a no-op nor a returned Error. -/
theorem init_second_call_panics (L : String → Except String Lib)
    (config : Config) (s : SnmpState) (h : (init L config s).1 = Outcome.ok ()) :
    (init L config ((init L config s).2)).1 =
      Outcome.panicked ("called Result::unwrap on an Err value: lib") := by
  unfold init at h
  rcases hc : cstringNew config.app_name with e | a
  · simp [hc] at h
  · simp only [hc] at h
    by_cases hp : config.lib_path = ""
    · simp [hp] at h
    · simp only [if_neg hp] at h
      rcases hL : L config.lib_path with e | lib
      · simp [hL] at h
      · simp only [hL] at h
        rcases hs : lib.getSym ("init_snmp") with e | u
        · simp [hs] at h
        · rcases u
          rcases hcell : s.cell with _ | l0
          · have h2 : (init L config s).2.cell = some lib := by
              unfold init
              simp [hc, hp, hL, hs, hcell]
            generalize hT : (init L config s).2 = T
            rw [hT] at h2
            unfold init
            simp [hc, hp, hL, hs, h2]
          · simp [hs, hcell] at h

/-- C10 witness: with a loader that always succeeds, a first init from the
fresh state returns ok and an immediate second init panics. -/
theorem init_second_call_panics_witness :
    (init LonlyInit cfgDyn ((init LonlyInit cfgDyn st0).2)).1 =
      Outcome.panicked ("called Result::unwrap on an Err value: lib") :=
  init_second_call_panics LonlyInit cfgDyn st0 rfl

set_option maxRecDepth 8192

/-- C1: evaluating the oid-encoding step of get_name on a sequence one
longer than MAX_OID_LEN: the strict greater-than guard lets index 128
through, so the array write panics with the Rust bounds-check message
instead of returning the InvalidData ("SNMP OID too long") error the spec
promises. -/
theorem encode_oid_overflow_is_bounds_panic :
    encode_oid (List.replicate (MAX_OID_LEN + 1) 0) =
      Outcome.panicked
        ("index out of bounds: the len is 128 but the index is 128") ∧
    encode_oid (List.replicate (MAX_OID_LEN + 1) 0) ≠
      Outcome.err (Error.invalid_data ("SNMP OID too long")) := by
  constructor
  · decide
  · decide

/-- C4: the name-encoding step of get_oid fails with InvalidData (through
get_oid itself, whatever the oracles) on every byte string holding a nul,
and on every nul-free byte string — the empty one included — it succeeds
with the input followed by the nul terminator. -/
theorem encode_name_nul_spec (s : Bytes) :
    if 0 ∈ s then
      encode_name s = Except.error (Error.invalid_data (nulErrorMsg s)) ∧
      (Error.invalid_data (nulErrorMsg s)).kind = ErrorKind.InvalidData ∧
      ∀ (oidFrom : List Nat → Except Unit (List Nat))
        (g : Bytes → List Nat → Nat → Int × List Nat × Nat),
        get_oid oidFrom g s = Outcome.err (Error.invalid_data (nulErrorMsg s))
    else
      encode_name s = Except.ok (s ++ [0]) ∧ (s ++ [0]).getLast? = some 0 := by
  by_cases h : 0 ∈ s
  · rw [if_pos h]
    have he : encode_name s = Except.error (Error.invalid_data (nulErrorMsg s)) := by
      unfold encode_name
      rw [cstringNew_err h]
    refine ⟨he, rfl, ?_⟩
    intro oidFrom g
    unfold get_oid
    rw [he]
  · rw [if_neg h]
    have he : encode_name s = Except.ok (s ++ [0]) := by
      unfold encode_name
      rw [cstringNew_ok h]
    exact ⟨he, by simp⟩

/-- Loop invariant of the oid-encoding loop on fitting input: every element
below 2 ^ 64 is written at its index, the count grows by the number of
elements, and every other slot of the array is untouched. -/
theorem encodeOidLoop_ok (l : List Nat) : ∀ (n len : Nat) (arr : List Nat),
    arr.length = MAX_OID_LEN → n + l.length ≤ MAX_OID_LEN →
    (∀ v ∈ l, v < 2 ^ 64) →
    ∃ arr2, encodeOidLoop l n arr len = Outcome.ok (arr2, len + l.length) ∧
      arr2.length = MAX_OID_LEN ∧
      (∀ i, i < n → arr2[i]? = arr[i]?) ∧
      (∀ j, j < l.length → arr2[n + j]? = l[j]?) ∧
      (∀ i, n + l.length ≤ i → arr2[i]? = arr[i]?) := by
  induction l with
  | nil =>
    intro n len arr hlen _ _
    exact ⟨arr, by simp [encodeOidLoop], hlen, fun i _ => rfl,
      fun j hj => absurd hj (by simp), fun i _ => rfl⟩
  | cons v rest ih =>
    intro n len arr hlen hcap hfit
    have hn : n < MAX_OID_LEN := by
      simp only [List.length_cons] at hcap
      omega
    have hguard : ¬ n > MAX_OID_LEN := by omega
    have hv : v < 2 ^ 64 := hfit v (List.mem_cons_self v rest)
    have hb : n < arr.length := by rw [hlen]; exact hn
    have step : encodeOidLoop (v :: rest) n arr len
        = encodeOidLoop rest (n + 1) (arr.set n v) (len + 1) := by
      rw [encodeOidLoop, if_neg hguard, tryIntoU64, if_pos hv]
      dsimp only
      rw [if_pos hb]
    obtain ⟨arr2, heq, hlen2, hA, hB, hC⟩ :=
      ih (n + 1) (len + 1) (arr.set n v)
        (by rw [List.length_set]; exact hlen)
        (by simp only [List.length_cons] at hcap; omega)
        (fun w hw => hfit w (List.mem_cons_of_mem v hw))
    have harith : len + 1 + rest.length = len + (v :: rest).length := by
      simp only [List.length_cons]
      omega
    refine ⟨arr2, ?_, hlen2, ?_, ?_, ?_⟩
    · rw [step, heq, harith]
    · intro i hi
      rw [hA i (Nat.lt_succ_of_lt hi), List.getElem?_set_ne (by omega)]
    · intro j hj
      cases j with
      | zero =>
        rw [Nat.add_zero, hA n (Nat.lt_succ_self n),
          List.getElem?_set_eq_of_lt v hb]
        simp
      | succ k =>
        have hk : k < rest.length := by
          simp only [List.length_cons] at hj
          omega
        rw [show n + (k + 1) = n + 1 + k by omega, hB k hk]
        simp
    · intro i hi
      have hi2 : n + 1 + rest.length ≤ i := by
        simp only [List.length_cons] at hi
        omega
      rw [hC i hi2, List.getElem?_set_ne (by omega)]

/-- Behaviour of the oid-encoding loop at the first element that does not
fit the native word: the conversion error surfaces as Failed with the
diagnostic appended to "Invalid SNMP OID: ". -/
theorem encodeOidLoop_err (v : Nat) (rest : List Nat) (hv : 2 ^ 64 ≤ v) :
    ∀ (pre : List Nat) (n len : Nat) (arr : List Nat),
    arr.length = MAX_OID_LEN → n + pre.length ≤ MAX_OID_LEN →
    (∀ w ∈ pre, w < 2 ^ 64) →
    encodeOidLoop (pre ++ v :: rest) n arr len =
      Outcome.err (Error.failed
        ("Invalid SNMP OID: out of range conversion regarding big integer attempted")) := by
  intro pre
  induction pre with
  | nil =>
    intro n len arr _ hcap _
    have hguard : ¬ n > MAX_OID_LEN := by
      simp only [List.length_nil] at hcap
      omega
    have hnv : ¬ v < 2 ^ 64 := by omega
    simp only [List.nil_append]
    rw [encodeOidLoop, if_neg hguard, tryIntoU64, if_neg hnv]
    rfl
  | cons w pre2 ih =>
    intro n len arr hlen hcap hfit
    have hn : n < MAX_OID_LEN := by
      simp only [List.length_cons] at hcap
      omega
    have hguard : ¬ n > MAX_OID_LEN := by omega
    have hw : w < 2 ^ 64 := hfit w (List.mem_cons_self w pre2)
    have hb : n < arr.length := by rw [hlen]; exact hn
    have step : encodeOidLoop ((w :: pre2) ++ v :: rest) n arr len
        = encodeOidLoop (pre2 ++ v :: rest) (n + 1) (arr.set n w) (len + 1) := by
      simp only [List.cons_append]
      rw [encodeOidLoop, if_neg hguard, tryIntoU64, if_pos hw]
      dsimp only
      rw [if_pos hb]
    rw [step]
    exact ih (n + 1) (len + 1) (arr.set n w)
      (by rw [List.length_set]; exact hlen)
      (by simp only [List.length_cons] at hcap; omega)
      (fun x hx => hfit x (List.mem_cons_of_mem w hx))

/-- C9: during oid encoding in get_name, an element at least 2 ^ 64 turns
into a Failed error whose message begins "Invalid SNMP OID" and carries the
conversion diagnostic; when every element fits and the sequence is within
capacity, each element is stored at its position, the valid-entry count is
the sequence length, and the unused slots keep their zero fill. -/
theorem encode_oid_element_conversion :
    (∀ snmp_oid : List Nat, snmp_oid.length ≤ MAX_OID_LEN →
      (∀ v ∈ snmp_oid, v < 2 ^ 64) →
      ∃ arr, encode_oid snmp_oid = Outcome.ok (arr, snmp_oid.length) ∧
        arr.length = MAX_OID_LEN ∧
        (∀ j, j < snmp_oid.length → arr[j]? = snmp_oid[j]?) ∧
        (∀ i, snmp_oid.length ≤ i → i < MAX_OID_LEN → arr[i]? = some 0)) ∧
    (∀ pre v rest, pre.length ≤ MAX_OID_LEN → (∀ w ∈ pre, w < 2 ^ 64) →
      2 ^ 64 ≤ v →
      encode_oid (pre ++ v :: rest) =
        Outcome.err (Error.failed
          ("Invalid SNMP OID: out of range conversion regarding big integer attempted"))) := by
  constructor
  · intro snmp_oid hlen hfit
    obtain ⟨arr, heq, hl, _, hB, hC⟩ :=
      encodeOidLoop_ok snmp_oid 0 0 (List.replicate MAX_OID_LEN 0)
        (by simp) (by simpa using hlen) hfit
    refine ⟨arr, ?_, hl, ?_, ?_⟩
    · unfold encode_oid
      rw [heq]
      simp
    · intro j hj
      have := hB j hj
      simpa using this
    · intro i hi1 hi2
      rw [hC i (by omega), List.getElem?_replicate, if_pos hi2]
  · intro pre v rest hlen hfit hv
    unfold encode_oid
    exact encodeOidLoop_err v rest hv pre 0 0 (List.replicate MAX_OID_LEN 0)
      (by simp) (by simpa using hlen) hfit

/-- Splitting a byte string at its first nul: the takeWhile prefix used by
the name decoder is exactly the nul-free part before the first nul. -/
theorem takeWhile_split_at_nul : ∀ (buf : Bytes), 0 ∈ buf →
    ∃ pre post, buf = pre ++ 0 :: post ∧ 0 ∉ pre ∧
      buf.takeWhile (fun b => b != 0) = pre := by
  intro buf
  induction buf with
  | nil => intro h; cases h
  | cons b t ih =>
    intro h
    by_cases hb : b = 0
    · subst hb
      exact ⟨[], t, rfl, by simp, by simp [List.takeWhile_cons]⟩
    · have ht : 0 ∈ t := by
        rcases List.mem_cons.mp h with h0 | h0
        · exact absurd h0.symm hb
        · exact h0
      obtain ⟨pre, post, he, hp, htw⟩ := ih ht
      refine ⟨b :: pre, post, by rw [List.cons_append, ← he], ?_, ?_⟩
      · intro hc
        rcases List.mem_cons.mp hc with h0 | h0
        · exact hb h0.symm
        · exact hp h0
      · rw [List.takeWhile_cons]
        simp [hb, htw]

/-- C8 counterexample: a name buffer filled with 1024 non-nul bytes.  The
claim says decoding never fails and returns the whole buffer lossily
decoded; the code instead lets CStr::from_ptr scan past the end of the
array — undefined behaviour, and no string is returned. -/
theorem decode_name_unterminated_cex :
    decode_name lossyConst (List.replicate MAX_NAME_LEN 65) =
      Outcome.ub ("CStr::from_ptr read past the end of the name buffer") ∧
    ∀ str, decode_name lossyConst (List.replicate MAX_NAME_LEN 65) ≠ Outcome.ok str := by
  have hnul : (0 : Nat) ∉ List.replicate MAX_NAME_LEN 65 := by
    intro h
    have h65 := List.eq_of_mem_replicate h
    simp at h65
  have h1 : decode_name lossyConst (List.replicate MAX_NAME_LEN 65) =
      Outcome.ub ("CStr::from_ptr read past the end of the name buffer") := by
    unfold decode_name
    rw [if_neg hnul]
  refine ⟨h1, fun str hstr => ?_⟩
  rw [h1] at hstr
  exact Outcome.noConfusion hstr

/-- C8 amended: for every buffer content that holds at least one nul byte —
whatever the bytes before it, valid UTF-8 or not — name decoding in
get_name never fails: it hands exactly the bytes preceding the first nul to
the lossy decoder and returns the result.  A buffer with no nul at all
instead makes CStr::from_ptr read out of bounds. -/
theorem decode_name_total_on_terminated (lossy : Bytes → String) (buf : Bytes)
    (h : 0 ∈ buf) :
    ∃ pre post, buf = pre ++ 0 :: post ∧ 0 ∉ pre ∧
      decode_name lossy buf = Outcome.ok (lossy pre) := by
  obtain ⟨pre, post, he, hp, htw⟩ := takeWhile_split_at_nul buf h
  refine ⟨pre, post, he, hp, ?_⟩
  unfold decode_name
  rw [if_pos h, htw]

/-- C8 witness: the buffer 72, 0, 255 decodes to the lossy image of the
single byte 72 before the nul. -/
theorem decode_name_total_on_terminated_witness :
    ∃ pre post, ([72, 0, 255] : Bytes) = pre ++ 0 :: post ∧ 0 ∉ pre ∧
      decode_name lossyConst [72, 0, 255] = Outcome.ok (lossyConst pre) :=
  decode_name_total_on_terminated lossyConst [72, 0, 255] (by decide)

/-- C3: for a nul-free name, get_oid returns Failed "Unable to get SNMP
OID" exactly when the native get_node primitive reports status zero (the
in/out length having been passed in as MAX_OID_LEN); on a non-zero status
it builds the OID from precisely the first len returned entries, and a
constructor failure is re-reported as Failed "Unable to create SNMP OID". -/
theorem get_oid_status_spec {O : Type} (oidFrom : List Nat → Except Unit O)
    (g : Bytes → List Nat → Nat → Int × List Nat × Nat) (name : Bytes)
    (hname : 0 ∉ name) :
    (∀ res arr len,
      g (name ++ [0]) (List.replicate MAX_OID_LEN 0) MAX_OID_LEN = (res, arr, len) →
      (get_oid oidFrom g name = Outcome.err (Error.failed ("Unable to get SNMP OID")) ↔
        res = 0)) ∧
    (∀ res arr len,
      g (name ++ [0]) (List.replicate MAX_OID_LEN 0) MAX_OID_LEN = (res, arr, len) →
      res ≠ 0 → len ≤ arr.length →
      get_oid oidFrom g name =
        match oidFrom (arr.take len) with
        | Except.ok o => Outcome.ok o
        | Except.error _ => Outcome.err (Error.failed ("Unable to create SNMP OID"))) := by
  have he : encode_name name = Except.ok (name ++ [0]) := by
    unfold encode_name
    rw [cstringNew_ok hname]
  constructor
  · intro res arr len hg
    unfold get_oid
    rw [he]
    dsimp only
    rw [hg]
    dsimp only
    by_cases hres : res = 0
    · rw [if_pos hres]
      simp [hres]
    · rw [if_neg hres]
      constructor
      · intro hcontra
        exfalso
        by_cases hlen : len ≤ arr.length
        · rw [if_pos hlen] at hcontra
          rcases ho : oidFrom (arr.take len) with u | o <;> rw [ho] at hcontra <;>
            simp [Error.failed] at hcontra
        · rw [if_neg hlen] at hcontra
          exact Outcome.noConfusion hcontra
      · intro h0
        exact absurd h0 hres
  · intro res arr len hg hres hlen
    unfold get_oid
    rw [he]
    dsimp only
    rw [hg]
    dsimp only
    rw [if_neg hres, if_pos hlen]

/-- C3 witness: a get_node oracle answering status 1 with three entries of
7; the Failed "Unable to get SNMP OID" outcome is equivalent to 1 = 0. -/
theorem get_oid_status_spec_witness :
    get_oid oidFromId gwNode [97] =
        Outcome.err (Error.failed ("Unable to get SNMP OID")) ↔
      (1 : Int) = 0 :=
  (get_oid_status_spec oidFromId gwNode [97] (by decide)).1 1
    (List.replicate MAX_OID_LEN 7) 3 rfl

end Snmptools
